import Mathlib

/-!
Shallow embedding of `charlton/spec.py` (model-specification core of the
charlton/patsy design-matrix library), together with proofs about the
embedded operations.

Conventions used throughout:
* numpy floating point values are embedded as rationals (`ℚ`); every number
  appearing in the claims is exactly representable, so no rounding is involved;
* a 2-dimensional numpy array is a list of rows (`List (List ℚ)`);
* Python dicts keyed by factor objects are association lists looked up with
  `alookup` (first binding wins, as a fresh dict insert does);
* Python exceptions (`CharltonErrorWithOrigin`, and the interpreter's own
  `NameError` / `KeyError`) are values of `ChError`, and fallible code
  returns `Except ChError _`;
* Python `assert` statements on internal invariants are not executed in the
  embedding; each is noted at the definition it would guard.
-/

/-- Errors raised by the embedded code.  `CharltonErrorWithOrigin` carries
the originating factor, embedded here as the factor's name in the first
argument of each constructor.  `nameError` and `keyError` embed the Python
interpreter's own exceptions for an unbound identifier and a missing
set/dict element. -/
inductive ChError where
  | dimError (factorName : String) (ndim maxDim : Nat)
  | typeError (factorName : String)
  | shapeError (factorName : String) (got expected : Nat)
  | levelMismatch (factorName : String)
  | nameError (ident : String)
  | keyError
deriving DecidableEq, Repr

/-- A factor (`charlton/spec.py` uses opaque factor objects with a `name()`
method, compared by identity or, for `LookupFactor`, by name; lines 488-502).
The embedding identifies a factor with its name. -/
structure Factor where
  name : String
deriving DecidableEq, Repr

/-- A categorical level: charlton levels are arbitrary Python values; the
levels occurring in this file are strings and the booleans `False`/`True`. -/
inductive PyLevel where
  | str (s : String)
  | bool (b : Bool)
deriving DecidableEq, Repr

/-- `ContrastMatrix` (external collaborator, `charlton.contrasts`): a numeric
contrast matrix (levels x code columns) plus one naming suffix per code
column, as described in spec section 6. -/
structure ContrastMatrix where
  matrix : List (List ℚ)
  column_suffixes : List String
deriving DecidableEq, Repr

/-- numpy's `arr.shape[1]` for a rectangular 2-d array embedded as a list of
rows: the length of the first row. -/
def shape1 (m : List (List ℚ)) : Nat :=
  (m.headD []).length

/-- Association-list lookup for the embedding of Python dicts (`d[k]` /
`k in d`): the first binding for the key, if any. -/
def alookup {κ α : Type} [DecidableEq κ] (k : κ) : List (κ × α) → Option α
  | [] => none
  | (k', v) :: t => if k = k' then some v else alookup k t

/-- Modelled from the spec: `odometer_iter` lives in `charlton.util`, which is
absent from the source tree.  Spec sections 4.4 and 9 describe it: enumerate
every combination of column indices for a list of radices by mixed-radix
counting, rightmost position varying fastest (the first factor is the
slowest-varying digit). -/
def odometer_iter : List Nat → List (List Nat)
  | [] => [[]]
  | r :: rs => ((List.range r).map fun i => (odometer_iter rs).map fun rest => i :: rest).flatten

/-- `ColumnBuilder` (`spec.py` lines 182-193): a term's ordered factor list
plus the numeric-column-count and categoric-contrast maps restricted to its
factors. -/
structure ColumnBuilder where
  factors : List Factor
  numeric_columns : List (Factor × Nat)
  categoric_contrasts : List (Factor × ContrastMatrix)
deriving DecidableEq, Repr

/-- `ColumnBuilder.__init__` lines 187-193: per factor, the contrast matrix's
column count when the factor has a contrast (`factor in categoric_contrasts`
is tested first), otherwise its numeric column count.  A factor in neither
map would raise `KeyError` in Python; the embedding returns width 0 there
(no claim concerns such a builder). -/
def ColumnBuilder.columns_per_factor (cb : ColumnBuilder) : List Nat :=
  cb.factors.map fun factor =>
    match alookup factor cb.categoric_contrasts with
    | some contrast => shape1 contrast.matrix
    | none => (alookup factor cb.numeric_columns).getD 0

/-- One `name_pieces` entry of `ColumnBuilder.column_names` (lines 200-212):
`column_names` tests `factor in numeric_columns` first; a numeric factor of
width 1 contributes its bare name (the source asserts `column_idx == 0`
there), a wider numeric factor contributes `name[idx]`, and a categoric
factor contributes `name` followed by the contrast's suffix for the column.
A factor in neither map would raise `KeyError`; the embedding yields the bare
name. -/
def namePiece (cb : ColumnBuilder) (factor : Factor) (column_idx : Nat) : String :=
  match alookup factor cb.numeric_columns with
  | some w =>
      if w > 1 then factor.name ++ "[" ++ toString column_idx ++ "]"
      else factor.name
  | none =>
      match alookup factor cb.categoric_contrasts with
      | some contrast => factor.name ++ contrast.column_suffixes.getD column_idx ""
      | none => factor.name

/-- `ColumnBuilder.column_names` (lines 195-215): `["Intercept"]` for an
empty factor list, otherwise one `:`-joined name per odometer combination of
per-factor column indices.  The source's closing
`assert len(column_names) == np.prod(self.columns_per_factor)` is proved
below as `column_names_length`. -/
def ColumnBuilder.column_names (cb : ColumnBuilder) : List String :=
  match cb.factors with
  | [] => ["Intercept"]
  | _ :: _ =>
      (odometer_iter cb.columns_per_factor).map fun column_idxs =>
        String.intercalate ":" ((cb.factors.zip column_idxs).map fun fc => namePiece cb fc.1 fc.2)

/-- The per-row column of values a factor contributes for one of its column
indices (`ColumnBuilder.build` lines 221-229).  For a categoric factor
(tested first, line 222) the evaluated value is an integer index array stored
as an (n,1) matrix of integral rationals; `.ravel()` flattens it row-major
(here: `List.flatten`) and each index selects a contrast-matrix row, from
which `column_idx` selects the entry.  For a numeric factor the contribution
is column `column_idx` of its evaluated matrix (the source asserts the
matrix's width equals the recorded numeric column count). -/
def factorColumn (cb : ColumnBuilder) (factor_values : List (Factor × List (List ℚ)))
    (factor : Factor) (column_idx : Nat) : List ℚ :=
  match alookup factor cb.categoric_contrasts with
  | some contrast =>
      ((alookup factor factor_values).getD []).flatten.map fun q =>
        (contrast.matrix.getD q.num.toNat []).getD column_idx 0
  | none =>
      ((alookup factor factor_values).getD []).map fun row => row.getD column_idx 0

/-- `out[:, i] *= col`: multiply column `i` of the matrix elementwise by
`col` (one entry per row). -/
def mulIntoColumn (m : List (List ℚ)) (i : Nat) (col : List ℚ) : List (List ℚ) :=
  (m.zip col).map fun rc => rc.1.set i (rc.1.getD i 0 * rc.2)

/-- `ColumnBuilder.build` (lines 217-229): `out[:] = 1`, then for each
odometer combination `i` multiply column `i` by every factor's contribution.
The source's opening `assert np.prod(self.columns_per_factor) == out.shape[1]`
is an internal invariant; claims about `build` carry the matching shape
hypothesis explicitly. -/
def ColumnBuilder.build (cb : ColumnBuilder) (factor_values : List (Factor × List (List ℚ)))
    (out : List (List ℚ)) : List (List ℚ) :=
  let start := out.map fun row => row.map fun _ => (1 : ℚ)
  (odometer_iter cb.columns_per_factor).enum.foldl
    (fun m p =>
      (cb.factors.zip p.2).foldl
        (fun m' fc => mulIntoColumn m' p.1 (factorColumn cb factor_values fc.1 fc.2))
        m)
    start

-- The concrete builder of the source's own `test_ColumnBuilder` (lines
-- 231-249), which is also the round-trip instance of the spec's section 8.

/-- Factor `f1` of `test_ColumnBuilder`. -/
def tf1 : Factor := ⟨"f1"⟩

/-- Factor `f2` of `test_ColumnBuilder`. -/
def tf2 : Factor := ⟨"f2"⟩

/-- Factor `f3` of `test_ColumnBuilder`. -/
def tf3 : Factor := ⟨"f3"⟩

/-- The contrast matrix `[[0, 0.5], [3, 0]]` with suffixes `["[c1]", "[c2]"]`
(lines 236-238). -/
def testContrast : ContrastMatrix :=
  ⟨[[0, 1/2], [3, 0]], ["[c1]", "[c2]"]⟩

/-- `ColumnBuilder([f1, f2, f3], {f1: 1, f3: 1}, {f2: contrast})` (line 240). -/
def testCb : ColumnBuilder :=
  ⟨[tf1, tf2, tf3], [(tf1, 1), (tf3, 1)], [(tf2, testContrast)]⟩

/-- The factor values of the round trip: `f1 = [1,2,3]` and `f3 = [7.5,2,-12]`
as column matrices, `f2` the categorical index column `[0,0,1]` (lines
243-245). -/
def testFactorValues : List (Factor × List (List ℚ)) :=
  [(tf1, [[1], [2], [3]]), (tf2, [[0], [0], [1]]), (tf3, [[15/2], [2], [-12]])]

/-- The intercept builder `ColumnBuilder([], {}, {})` (line 264). -/
def interceptCb : ColumnBuilder := ⟨[], [], []⟩

-- Supporting lemmas about the embedded `ColumnBuilder` operations.

/-- The odometer enumeration over radices `rs` has exactly `rs.prod`
combinations. -/
theorem odometer_iter_length (rs : List Nat) : (odometer_iter rs).length = rs.prod := by
  induction rs with
  | nil => rfl
  | cons r rs ih =>
      simp [odometer_iter, List.length_flatten, List.map_map, Function.comp_def, ih,
        List.map_const', List.sum_replicate, smul_eq_mul]

/-- `out[:] = 1` produces a matrix determined by the shape of `out` alone. -/
theorem ones_of_shape (l : List (List ℚ)) :
    (l.map fun row => row.map fun _ => (1 : ℚ)) =
      (l.map List.length).map fun n => List.replicate n 1 := by
  induction l with
  | nil => rfl
  | cons r t ih => simp [ih, List.map_const']

/-- `ColumnBuilder.build` reads its `out` argument only through its shape:
two output matrices with the same per-row lengths build identically. -/
theorem build_congr (cb : ColumnBuilder) (factor_values : List (Factor × List (List ℚ)))
    (o₁ o₂ : List (List ℚ)) (h : o₁.map List.length = o₂.map List.length) :
    cb.build factor_values o₁ = cb.build factor_values o₂ := by
  simp only [ColumnBuilder.build]
  rw [ones_of_shape, ones_of_shape, h]

/-- The source's `assert len(column_names) == np.prod(self.columns_per_factor)`
(line 214): for a non-empty factor list the number of generated names is the
product of the per-factor widths. -/
theorem column_names_length (cb : ColumnBuilder) (h : cb.factors ≠ []) :
    cb.column_names.length = cb.columns_per_factor.prod := by
  obtain ⟨fs, nc, cc⟩ := cb
  cases fs with
  | nil => exact absurd rfl h
  | cons f t => simp [ColumnBuilder.column_names, odometer_iter_length]

/-- C1: for the term over `f1` (numeric, width 1), `f2` (categorical with the
2-column contrast `[[0, 0.5], [3, 0]]` and suffixes `["[c1]", "[c2]"]`) and
`f3` (numeric, width 1), `column_names()` is exactly
`["f1:f2[c1]:f3", "f1:f2[c2]:f3"]`, and `build` with `f1 = [1,2,3]`,
`f2` indices `[0,0,1]`, `f3 = [7.5,2,-12]` fills any 3x2 output matrix with
exactly `[[0, 3.75], [0, 2.0], [-108, 0]]`. -/
theorem claim_C1_round_trip (out : List (List ℚ)) (h : out.map List.length = [2, 2, 2]) :
    testCb.column_names = ["f1:f2[c1]:f3", "f1:f2[c2]:f3"] ∧
    testCb.build testFactorValues out = [[0, 15/4], [0, 2], [-108, 0]] := by
  refine ⟨by decide, ?_⟩
  rw [build_congr testCb testFactorValues out [[0, 0], [0, 0], [0, 0]] (by rw [h]; rfl)]
  norm_num +decide [ColumnBuilder.build, ColumnBuilder.columns_per_factor, mulIntoColumn,
    factorColumn, testCb, testContrast, testFactorValues, tf1, tf2, tf3, alookup,
    odometer_iter, shape1, List.enum, List.enumFrom, List.range_succ,
    List.getD, List.set]

/-- Witness for C1 at the concrete all-zero 3x2 output matrix. -/
theorem claim_C1_round_trip_witness :
    (([[0, 0], [0, 0], [0, 0]] : List (List ℚ)).map List.length = [2, 2, 2]) ∧
    testCb.column_names = ["f1:f2[c1]:f3", "f1:f2[c2]:f3"] ∧
    testCb.build testFactorValues [[0, 0], [0, 0], [0, 0]] = [[0, 15/4], [0, 2], [-108, 0]] :=
  ⟨rfl, (claim_C1_round_trip [[0, 0], [0, 0], [0, 0]] rfl).1,
    (claim_C1_round_trip [[0, 0], [0, 0], [0, 0]] rfl).2⟩

/-- C2: for every `ColumnBuilder` with a non-empty factor list the length of
`column_names()` is the product of the per-factor column widths
(contrast-matrix column count for a categorical factor, the numeric column
count otherwise — exactly `columns_per_factor`); for an empty factor list
`column_names()` is exactly `["Intercept"]`. -/
theorem claim_C2_column_count (cb : ColumnBuilder) :
    (cb.factors ≠ [] → cb.column_names.length = cb.columns_per_factor.prod) ∧
    (cb.factors = [] → cb.column_names = ["Intercept"]) := by
  refine ⟨column_names_length cb, fun h => ?_⟩
  obtain ⟨fs, nc, cc⟩ := cb
  simp only at h
  subst h
  rfl

/-- Witness for C2 at the three-factor builder of the round trip and at the
intercept builder. -/
theorem claim_C2_column_count_witness :
    (testCb.factors ≠ [] ∧ testCb.column_names.length = 2) ∧
    (interceptCb.factors = [] ∧ interceptCb.column_names = ["Intercept"]) :=
  ⟨⟨by decide, ((claim_C2_column_count testCb).1 (by decide)).trans (by decide)⟩,
    ⟨rfl, (claim_C2_column_count interceptCb).2 rfl⟩⟩

/-- C10: `build` initializes every output entry to 1 and then only
multiplies, so its result is independent of the output matrix's prior
contents — two matrices of the required shape (one row per chunk row,
product-of-widths columns) build identically — and for the empty factor list
every entry of the result is exactly 1. -/
theorem claim_C10_output_independent (cb : ColumnBuilder)
    (factor_values : List (Factor × List (List ℚ))) (n : Nat) (o₁ o₂ : List (List ℚ))
    (h₁ : o₁.map List.length = List.replicate n cb.columns_per_factor.prod)
    (h₂ : o₂.map List.length = List.replicate n cb.columns_per_factor.prod) :
    cb.build factor_values o₁ = cb.build factor_values o₂ ∧
    (cb.factors = [] → cb.build factor_values o₁ = List.replicate n [(1 : ℚ)]) := by
  refine ⟨build_congr cb factor_values o₁ o₂ (h₁.trans h₂.symm), fun hf => ?_⟩
  have hcpf : cb.columns_per_factor = [] := by
    simp [ColumnBuilder.columns_per_factor, hf]
  rw [hcpf] at h₁
  simp only [List.prod_nil] at h₁
  simp only [ColumnBuilder.build, hcpf, hf, odometer_iter]
  simp [List.enum, List.enumFrom, ones_of_shape, h₁, List.map_replicate]
  have h₃ : (o₁.map List.length).map (fun k => List.replicate k (1 : ℚ)) =
      List.replicate n [1] := by
    rw [h₁]
    simp
  simpa [List.map_map, Function.comp_def] using h₃

/-- Witness for C10 at the intercept builder with two different 2x1 output
matrices. -/
theorem claim_C10_output_independent_witness :
    (([[5], [7]] : List (List ℚ)).map List.length =
        List.replicate 2 interceptCb.columns_per_factor.prod) ∧
    interceptCb.build [] [[5], [7]] = interceptCb.build [] [[0], [0]] ∧
    interceptCb.build [] [[5], [7]] = List.replicate 2 [(1 : ℚ)] :=
  ⟨rfl, (claim_C10_output_independent interceptCb [] 2 [[5], [7]] [[0], [0]] rfl rfl).1,
    (claim_C10_output_independent interceptCb [] 2 [[5], [7]] [[0], [0]] rfl rfl).2 rfl⟩

-- `ModelMatrixBuilder` (`spec.py` lines 367-391) and its column layout.

/-- A term: a collection of factors (spec section 3; the source only reads
`term.factors`, line 353, and uses terms as dict keys). -/
structure Term where
  factors : List Factor
deriving DecidableEq, Repr

/-- `ModelMatrixBuilder.__init__` (lines 368-391) stores the ordered term
list, the per-factor evaluators and the per-term column builders, then
computes the column layout.  The evaluator map takes no part in the layout
computation and is not embedded. -/
structure ModelMatrixBuilder where
  terms : List Term
  term_column_builders : List (Term × List ColumnBuilder)
deriving DecidableEq, Repr

/-- `self.term_column_builders[term]` (line 375). -/
def ModelMatrixBuilder.builders_of (m : ModelMatrixBuilder) (t : Term) : List ColumnBuilder :=
  (alookup t m.term_column_builders).getD []

/-- `term_column_count` (lines 372-381): per term, the sum of its column
builders' name counts. -/
def ModelMatrixBuilder.term_column_count (m : ModelMatrixBuilder) : List Nat :=
  m.terms.map fun t => ((m.builders_of t).map fun cb => cb.column_names.length).sum

/-- The accumulated `column_names` of lines 373-380: every builder's names,
in term order. -/
def ModelMatrixBuilder.column_names (m : ModelMatrixBuilder) : List String :=
  (m.terms.map fun t => ((m.builders_of t).map ColumnBuilder.column_names).flatten).flatten

/-- `term_column_starts = np.concatenate(([0], np.cumsum(term_column_count)))`
(line 382): the prefix sums of the per-term column counts. -/
def ModelMatrixBuilder.term_column_starts (m : ModelMatrixBuilder) : List Nat :=
  (List.range (m.terms.length + 1)).map fun i => (m.term_column_count.take i).sum

/-- The span assigned to the i-th term (lines 385-388):
`(term_column_starts[i], term_column_starts[i+1])`. -/
def ModelMatrixBuilder.term_spans (m : ModelMatrixBuilder) : List (Nat × Nat) :=
  (List.range m.terms.length).map fun i =>
    ((m.term_column_count.take i).sum, (m.term_column_count.take (i + 1)).sum)

/-- `ModelMatrixColumnInfo` (external collaborator, `charlton.model_matrix`):
the ordered column names plus the term-to-span mapping (the source fills both
`term_name_to_columns` and `term_to_columns` with the same spans, lines
386-388, so one map is embedded). -/
structure ModelMatrixColumnInfo where
  column_names : List String
  term_to_columns : List (Term × (Nat × Nat))
deriving DecidableEq, Repr

/-- `self.column_info = ModelMatrixColumnInfo(...)` (lines 389-391). -/
def ModelMatrixBuilder.column_info (m : ModelMatrixBuilder) : ModelMatrixColumnInfo :=
  ⟨m.column_names, m.terms.zip m.term_spans⟩

/-- The span of the i-th term, in closed form. -/
theorem term_spans_getD (m : ModelMatrixBuilder) (i : Nat) (h : i < m.terms.length) :
    m.term_spans.getD i (0, 0) =
      ((m.term_column_count.take i).sum, (m.term_column_count.take (i + 1)).sum) := by
  simp [ModelMatrixBuilder.term_spans, List.getD, List.getElem?_map, List.getElem?_range, h]

/-- The per-term column counts are indexed like the terms. -/
theorem term_column_count_length (m : ModelMatrixBuilder) :
    m.term_column_count.length = m.terms.length := by
  simp [ModelMatrixBuilder.term_column_count]

/-- Total columns: the accumulated name list is as long as the per-term
counts add up to. -/
theorem column_names_total (m : ModelMatrixBuilder) :
    m.column_names.length = m.term_column_count.sum := by
  simp [ModelMatrixBuilder.column_names, ModelMatrixBuilder.term_column_count,
    List.length_flatten, List.map_map, Function.comp_def]

/-- Prefix sums of a list of naturals are monotone in the prefix length. -/
theorem sum_take_mono (l : List Nat) {a b : Nat} (h : a ≤ b) :
    (l.take a).sum ≤ (l.take b).sum := by
  have h₁ : (l.take b).take a = l.take a := by
    rw [List.take_take, Nat.min_eq_left h]
  calc (l.take a).sum = ((l.take b).take a).sum := by rw [h₁]
    _ ≤ ((l.take b).take a).sum + ((l.take b).drop a).sum := Nat.le_add_right _ _
    _ = (l.take b).sum := by rw [← List.sum_append, List.take_append_drop]

/-- C8: the Column Info a `ModelMatrixBuilder` constructs maps each term to a
half-open span; the spans are contiguous, non-overlapping, in term order;
each span's length is the sum of the name counts of that term's column
builders; and together they cover `[0, total_columns)`. -/
theorem claim_C8_column_info_spans (m : ModelMatrixBuilder) :
    m.column_info.column_names = m.column_names ∧
    m.column_info.term_to_columns = m.terms.zip m.term_spans ∧
    m.term_spans.length = m.terms.length ∧
    (∀ i, i + 1 < m.terms.length →
      (m.term_spans.getD i (0, 0)).2 = (m.term_spans.getD (i + 1) (0, 0)).1) ∧
    (∀ i j, i < j → j < m.terms.length →
      (m.term_spans.getD i (0, 0)).2 ≤ (m.term_spans.getD j (0, 0)).1) ∧
    (∀ i, (h : i < m.terms.length) →
      (m.term_spans.getD i (0, 0)).1 ≤ (m.term_spans.getD i (0, 0)).2 ∧
      (m.term_spans.getD i (0, 0)).2 = (m.term_spans.getD i (0, 0)).1 +
        ((m.builders_of (m.terms.get ⟨i, h⟩)).map fun cb => cb.column_names.length).sum) ∧
    (m.terms ≠ [] →
      (m.term_spans.getD 0 (0, 0)).1 = 0 ∧
      (m.term_spans.getD (m.terms.length - 1) (0, 0)).2 = m.column_names.length) := by
  refine ⟨rfl, rfl, by simp [ModelMatrixBuilder.term_spans], ?_, ?_, ?_, ?_⟩
  · intro i h
    rw [term_spans_getD m i (Nat.lt_of_succ_lt h), term_spans_getD m (i + 1) h]
  · intro i j hij hj
    rw [term_spans_getD m i (Nat.lt_trans hij hj), term_spans_getD m j hj]
    exact sum_take_mono _ hij
  · intro i h
    rw [term_spans_getD m i h]
    have h' : i < m.term_column_count.length := by
      rw [term_column_count_length]
      exact h
    refine ⟨sum_take_mono _ (Nat.le_succ i), ?_⟩
    rw [List.sum_take_succ _ _ h']
    simp [ModelMatrixBuilder.term_column_count]
  · intro hne
    have hpos : 0 < m.terms.length := List.length_pos.mpr hne
    constructor
    · rw [term_spans_getD m 0 hpos]
      rfl
    · rw [term_spans_getD m (m.terms.length - 1) (Nat.sub_lt hpos Nat.one_pos)]
      rw [Nat.sub_add_cancel hpos, ← term_column_count_length m, List.take_length,
        ← column_names_total]

/-- The intercept term, for witnesses. -/
def testTermA : Term := ⟨[]⟩

/-- The three-factor term of the round trip, for witnesses. -/
def testTermB : Term := ⟨[tf1, tf2, tf3]⟩

/-- A two-term matrix builder: the intercept term (one column) followed by
the round-trip term (two columns). -/
def testMmb : ModelMatrixBuilder :=
  ⟨[testTermA, testTermB], [(testTermA, [interceptCb]), (testTermB, [testCb])]⟩

/-- Witness for C8 at the concrete two-term builder: spans `(0,1)` and
`(1,3)`, contiguous, covering the three columns. -/
theorem claim_C8_column_info_spans_witness :
    testMmb.terms ≠ [] ∧
    testMmb.term_spans.getD 0 (0, 0) = (0, 1) ∧
    testMmb.term_spans.getD 1 (0, 0) = (1, 3) ∧
    (testMmb.term_spans.getD 0 (0, 0)).2 = (testMmb.term_spans.getD 1 (0, 0)).1 ∧
    (testMmb.term_spans.getD 1 (0, 0)).2 = testMmb.column_names.length :=
  ⟨by decide, by decide, by decide,
    (claim_C8_column_info_spans testMmb).2.2.2.1 0 (by decide),
    ((claim_C8_column_info_spans testMmb).2.2.2.2.2.2 (by decide)).2⟩

-- `ModelSpec` (`spec.py` lines 393-407) and the single-shot / incremental
-- matrix-construction paths.

/-- A data chunk, as it reaches matrix building: a row count plus each
factor's already-evaluated matrix for the chunk (spec section 4.5: every
referenced factor is evaluated once per chunk, then the column builders
consume the evaluated values). -/
structure Chunk where
  nrows : Nat
  factor_values : List (Factor × List (List ℚ))
deriving DecidableEq, Repr

/-- Horizontal concatenation of matrices with a common row count. -/
def hstack (ms : List (List (List ℚ))) (nrows : Nat) : List (List ℚ) :=
  (List.range nrows).map fun r => (ms.map fun mat => mat.getD r []).flatten

/-- Modelled from the spec: `ModelMatrixBuilder` in the source has no build
method.  Spec section 4.5: building the full matrix for one chunk invokes
each term's column builders, writing each builder's block into its column
slice — the chunk matrix is the row-wise concatenation of the blocks in term
order, each block produced by `ColumnBuilder.build` on a fresh output of the
builder's declared width. -/
def ModelMatrixBuilder.build_chunk (m : ModelMatrixBuilder) (ch : Chunk) : List (List ℚ) :=
  hstack
    ((m.terms.map fun t =>
      (m.builders_of t).map fun cb =>
        cb.build ch.factor_values
          (List.replicate ch.nrows (List.replicate cb.columns_per_factor.prod 0))).flatten)
    ch.nrows

/-- Modelled from the spec: `make_model_matrices_incremental` is called at
line 405 but defined in no source file.  Spec section 4.6: it drives every
given builder over the same chunk stream, producing one matrix per chunk per
builder.  A restartable chunk supplier is embedded as the list of chunks it
yields. -/
def make_model_matrices_incremental (builders : List ModelMatrixBuilder)
    (chunks : List Chunk) : List (List (List (List ℚ))) :=
  chunks.map fun ch => builders.map fun b => b.build_chunk ch

/-- `ModelSpec` (lines 393-397): the left-hand-side and right-hand-side
matrix builders (the stored model description takes no part in matrix
construction and is not embedded). -/
structure ModelSpec where
  lhs_builder : ModelMatrixBuilder
  rhs_builder : ModelMatrixBuilder
deriving DecidableEq, Repr

/-- `ModelSpec.make_matrices_incremental` (lines 404-407): delegate to
`make_model_matrices_incremental` with the builder pair `[lhs, rhs]`. -/
def ModelSpec.make_matrices_incremental (s : ModelSpec) (chunks : List Chunk) :
    List (List (List (List ℚ))) :=
  make_model_matrices_incremental [s.lhs_builder, s.rhs_builder] chunks

/-- `ModelSpec.make_matrices` (lines 399-402): wrap the single chunk as a
one-element stream (`data_gen` yields `data` once) and delegate to the
incremental path. -/
def ModelSpec.make_matrices (s : ModelSpec) (data : Chunk) :
    List (List (List (List ℚ))) :=
  s.make_matrices_incremental [data]

/-- C9: the single-shot path is exactly the incremental path over a
one-element stream, and it drives both the left-hand-side and the
right-hand-side builder on that chunk. -/
theorem claim_C9_single_shot_is_incremental (s : ModelSpec) (data : Chunk) :
    s.make_matrices data = s.make_matrices_incremental [data] ∧
    s.make_matrices data =
      [[s.lhs_builder.build_chunk data, s.rhs_builder.build_chunk data]] :=
  ⟨rfl, rfl⟩

-- The type examiner (`_examine_factor_types`, lines 301-342), the boolean
-- postprocessor (`_BoolToCategorical`, lines 48-62) and the factor
-- evaluators (lines 76-152).

/-- numpy dtype kinds the source distinguishes: numeric
(`np.issubdtype(dtype, np.number)`), boolean (`dtype.kind == "b"`), and
everything else (strings, Python objects). -/
inductive Kind where
  | num
  | bool
  | obj
deriving DecidableEq, Repr

/-- A numpy array as the examiner and the evaluators inspect one: its dtype
kind, its shape, and its flattened contents.  Only integer-valued contents
(boolean arrays as 0/1, categorical index arrays) are consumed by the
embedded code, so the payload is `List Int`; it is empty where the contents
never matter. -/
structure NpArr where
  kind : Kind
  shape : List Nat
  data : List Int
deriving DecidableEq, Repr

/-- `arr.ndim`. -/
def NpArr.ndim (a : NpArr) : Nat :=
  a.shape.length

/-- `Categorical` (external collaborator, `charlton.categorical`): an ordered
level sequence, an integer index array (dtype int, hence kind `num`), and an
optional contrast object (spec section 6). -/
structure Categorical where
  levels : List PyLevel
  int_array : NpArr
  contrast : Option ContrastMatrix
deriving DecidableEq, Repr

/-- A value produced by a factor's `eval`: either a `Categorical` object or
an array-like. -/
inductive PyVal where
  | categorical (c : Categorical)
  | arr (a : NpArr)
deriving DecidableEq, Repr

/-- `np.asarray` as the embedded code applies it: an array-like is itself; a
`Categorical` instance is an opaque Python object to numpy and becomes a
0-dimensional object-dtype array. -/
def asarray : PyVal → NpArr
  | .categorical _ => ⟨.obj, [], []⟩
  | .arr a => a

/-- Modelled from the spec: `atleast_2d_column_default` lives in
`charlton.util`, which is absent from the source tree.  Spec section 4.3:
coerce to exactly 2 dimensions by turning a 0- or 1-dimensional value into a
single-column matrix; higher-dimensional input is returned unchanged. -/
def atleast_2d_column_default (a : NpArr) : NpArr :=
  match a.shape with
  | [] => { a with shape := [1, 1] }
  | [n] => { a with shape := [n, 1] }
  | _ => a

/-- `_max_allowed_dim` (lines 29-34): a fatal, factor-tagged error when the
array's dimensionality exceeds the bound. -/
def max_allowed_dim (dim : Nat) (arr : NpArr) (factor : Factor) : Except ChError Unit :=
  if arr.ndim > dim then .error (.dimError factor.name arr.ndim dim) else .ok ()

/-- `_BoolToCategorical` (lines 48-50): the boolean-to-categorical
postprocessor, bound to its factor. -/
structure BoolToCategorical where
  factor : Factor
deriving DecidableEq, Repr

/-- `_BoolToCategorical.transform` (lines 52-62): coerce the value to an
array, require dimensionality at most 1, require boolean dtype (else a
factor-tagged type error), and return a `Categorical` over the fixed level
order `[False, True]` whose index array is the boolean data (False as 0,
True as 1, an int-dtype array). -/
def BoolToCategorical.transform (btc : BoolToCategorical) (data : PyVal) :
    Except ChError Categorical := do
  let d := asarray data
  max_allowed_dim 1 d btc.factor
  if d.kind = .bool then
    pure ⟨[.bool false, .bool true], ⟨.num, d.shape, d.data⟩, none⟩
  else
    throw (.typeError btc.factor.name)

/-- A categorical postprocessor as the examiner stores one: the boolean
converter, or a level-accumulating `CategoricalTransform` (external
collaborator, embedded by the list of chunks fed to its `memorize_chunk`). -/
inductive Postproc where
  | boolToCat (btc : BoolToCategorical)
  | catTransform (memorized : List NpArr)
deriving DecidableEq, Repr

/-- The examiner's state (lines 302-305): the three result maps plus the
working set `examine_needed` of not-yet-classified factors. -/
structure ExamineState where
  numeric_column_counts : List (Factor × Nat)
  categorical_postprocessors : List (Factor × Postproc)
  categorical_levels_contrasts : List (Factor × (List PyLevel × Option ContrastMatrix))
  examine_needed : List Factor
deriving DecidableEq, Repr

/-- Python `set.remove`: removes the element, raising `KeyError` when it is
absent. -/
def setRemove (s : List Factor) (f : Factor) : Except ChError (List Factor) :=
  if f ∈ s then .ok (s.erase f) else .error .keyError

/-- Modelled from the spec: `_get_numeric_column_count` is called at line 321
but defined nowhere in the source tree.  Spec section 4.2: a numeric factor's
column count is 1 for a single-dimension or single-column result, otherwise
the second-dimension width (the argument here is already 2-d coerced). -/
def get_numeric_column_count (value : NpArr) : Nat :=
  value.shape.getD 1 1

/-- `processor.memorize_chunk(value)` (line 337): hand the 2-d coerced chunk
to the factor's accumulating transform (the boolean converter has no
`memorize_chunk`; Python would raise `AttributeError` there, but that
binding can only have been installed by the unreachable boolean branch). -/
def memorizeChunk (factor : Factor) (v : NpArr) :
    List (Factor × Postproc) → List (Factor × Postproc)
  | [] => []
  | (f, p) :: t =>
      if f = factor then
        match p with
        | .catTransform l => (f, .catTransform (l ++ [v])) :: t
        | .boolToCat b => (f, .boolToCat b) :: t
      else
        (f, p) :: memorizeChunk factor v t

/-- The per-factor classification body of `_examine_factor_types` (lines
313-337), as a function of the factor's evaluated value and the examiner
state.  (The enclosing function cannot actually reach a second factor: its
first per-factor statement, line 313, reads `factor_states`, which is bound
neither in `_examine_factor_types` — whose parameters are `factors`,
`data_iter_maker`, `args`, `kwargs` — nor at module level, so the Python
call raises `NameError` outright.  The classification logic itself is
embedded here, given the value `eval` would have produced.)

The control flow is exactly the source's: the `isinstance(value, Categorical)`
branch (lines 314-317) records the levels and contrast and removes the
factor from the working set but does not stop — the source has no
`continue` — so the same value then flows through the 2-d coercion (line
318), the dimension bound (line 319) and the dtype dispatch (lines
320-337).  Both the boolean branch (line 329) and the level-accumulation
branch (line 333) apply `_max_allowed_dim(1, value, factor)` to the already
2-d coerced value. -/
def examineStep (factor : Factor) (value : PyVal) (st : ExamineState) :
    Except ChError ExamineState := do
  let st₁ ←
    match value with
    | .categorical c => do
        let needed ← setRemove st.examine_needed factor
        pure { st with
          categorical_levels_contrasts :=
            (factor, (c.levels, c.contrast)) :: st.categorical_levels_contrasts
          examine_needed := needed }
    | .arr _ => pure st
  let v := atleast_2d_column_default (asarray value)
  max_allowed_dim 2 v factor
  if v.kind = .num then do
    let needed ← setRemove st₁.examine_needed factor
    pure { st₁ with
      numeric_column_counts := (factor, get_numeric_column_count v) :: st₁.numeric_column_counts
      examine_needed := needed }
  else if v.kind = .bool then do
    max_allowed_dim 1 v factor
    let needed ← setRemove st₁.examine_needed factor
    pure { st₁ with
      categorical_postprocessors :=
        (factor, .boolToCat ⟨factor⟩) :: st₁.categorical_postprocessors
      examine_needed := needed }
  else do
    max_allowed_dim 1 v factor
    let processors :=
      match alookup factor st₁.categorical_postprocessors with
      | some _ => st₁.categorical_postprocessors
      | none => (factor, .catTransform []) :: st₁.categorical_postprocessors
    pure { st₁ with categorical_postprocessors := memorizeChunk factor v processors }

/-- A factor evaluating to an already-categorical value, for C3. -/
def tfc : Factor := ⟨"c"⟩

/-- A concrete `Categorical` value: levels `["a", "b"]`, a 1-dimensional
index array `[1, 0, 1]`, and the round-trip contrast as its built-in
coding. -/
def testCat : Categorical :=
  ⟨[.str "a", .str "b"], ⟨.num, [3], [1, 0, 1]⟩, some testContrast⟩

/-- C3: contrary to the claim, a factor whose evaluation yields a
`Categorical` value is not done after the levels and contrast are recorded
and the factor is removed from the working set: lacking a `continue`, the
examiner keeps classifying the same value, which as an opaque object coerces
to a (1,1) object-dtype array, falls into the level-accumulation branch, and
fails its `_max_allowed_dim(1, ...)` check — the whole step returns a
dimension error (2 > 1) instead of the updated state. -/
theorem claim_C3_categorical_not_done (st : ExamineState) (h : tfc ∈ st.examine_needed) :
    examineStep tfc (.categorical testCat) st = .error (.dimError "c" 2 1) := by
  have h' : ({ name := "c" } : Factor) ∈ st.examine_needed := h
  simp [examineStep, setRemove, h', asarray, atleast_2d_column_default,
    max_allowed_dim, NpArr.ndim, tfc, Bind.bind, Except.bind, Pure.pure, Except.pure]

/-- Witness for C3: the step on a fresh working set containing only the
factor. -/
theorem claim_C3_categorical_not_done_witness :
    tfc ∈ [tfc] ∧
    examineStep tfc (.categorical testCat) ⟨[], [], [], [tfc]⟩ =
      .error (.dimError "c" 2 1) :=
  ⟨by decide, claim_C3_categorical_not_done ⟨[], [], [], [tfc]⟩ (by decide)⟩

/-- A factor evaluating to a boolean vector, for C4. -/
def tfb : Factor := ⟨"b"⟩

/-- The 1-dimensional boolean array `[True, False]`. -/
def boolChunk : NpArr := ⟨.bool, [2], [1, 0]⟩

/-- C4: contrary to the claim, a factor whose chunk evaluates to a
1-dimensional boolean value is never classified: the boolean branch applies
`_max_allowed_dim(1, value, factor)` to the already 2-d coerced value, which
always fails (2 > 1), so the step returns a dimension error for every
examiner state and the `_BoolToCategorical` postprocessor is never
installed.  The converter itself (dead code in the pipeline) does behave as
claimed: on boolean data it produces a two-level categorical with level
order `(False, True)`. -/
theorem claim_C4_bool_never_classified (st : ExamineState) :
    examineStep tfb (.arr boolChunk) st = .error (.dimError "b" 2 1) ∧
    BoolToCategorical.transform ⟨tfb⟩ (.arr boolChunk) =
      .ok ⟨[.bool false, .bool true], ⟨.num, [2], [1, 0]⟩, none⟩ := by
  constructor
  · simp [examineStep, boolChunk, asarray, atleast_2d_column_default,
      max_allowed_dim, NpArr.ndim, tfb, Bind.bind, Except.bind, Pure.pure, Except.pure]
  · rfl

/-- `NumericFactorEvaluator` (lines 76-82): bound to its factor and the
expected column count fixed at construction (the memorized state and the
default environment are opaque to the embedding). -/
structure NumericFactorEvaluator where
  factor : Factor
  expected_columns : Nat
deriving DecidableEq, Repr

/-- `NumericFactorEvaluator.eval` (lines 84-102).  Its first statement,
`self.factor.eval(self._state, DictStack([env, default_env]))` (line 85),
reads the identifiers `env` and `default_env`; neither is bound in the
method — its parameter is `data` and the fields are `self._state`,
`self._default_env` — nor at module level, so every call raises `NameError`
for the first unresolved name, `env`, and lines 86-102 are unreachable.  The
embedding is that constant. -/
def NumericFactorEvaluator.eval (_ev : NumericFactorEvaluator)
    (_data : List (String × PyVal)) : Except ChError NpArr :=
  .error (.nameError "env")

/-- What lines 86-102 of `NumericFactorEvaluator.eval` would do with the
factor-evaluation result, embedded for reference: 2-d coercion, dimension
bound 2, the column-count check against the expected count (the source's
message prints expected and actual swapped; both numbers are recorded here),
the numeric-dtype check, and the checked matrix as the result.  The
evaluator's in-file test (lines 104-121) exercises exactly these outcomes,
but `eval` never reaches this code. -/
def numericEvalChecks (ev : NumericFactorEvaluator) (result : NpArr) :
    Except ChError NpArr := do
  let r := atleast_2d_column_default result
  max_allowed_dim 2 r ev.factor
  if (r.shape.getD 1 1) ≠ ev.expected_columns then
    throw (.shapeError ev.factor.name (r.shape.getD 1 1) ev.expected_columns)
  else if r.kind ≠ .num then
    throw (.typeError ev.factor.name)
  else
    pure r

/-- C5: contrary to the claim, no call of `NumericFactorEvaluator.eval`
performs the shape and type classification: every call fails with the
interpreter's `NameError` on the unbound `env` at line 85, for any evaluator
and any chunk.  The source's own `test_NumericFactorEvaluator` (lines
104-121) expects `eval({"mock": [1, 2, 3]})` to return the column matrix
`[[1], [2], [3]]`. -/
theorem claim_C5_numeric_eval_name_error (ev : NumericFactorEvaluator)
    (data : List (String × PyVal)) :
    ev.eval data = .error (.nameError "env") := rfl

/-- `CategoricFactorEvaluator` (lines 123-131): bound to its factor, an
optional postprocessor, and the frozen expected level sequence (line 130
takes a tuple of the given levels; the memorized state and the default
environment are opaque to the embedding). -/
structure CategoricFactorEvaluator where
  factor : Factor
  postprocessor : Option BoolToCategorical
  expected_levels : List PyLevel
deriving DecidableEq, Repr

/-- `CategoricFactorEvaluator.eval` (lines 133-152).  Line 134 evaluates the
factor against `DictStack([data, default_env])`: `data` is the parameter,
but `default_env` is bound neither in the method — the stored field is
`self._default_env` — nor at module level, so every call raises `NameError`
and lines 135-152 are unreachable.  The embedding is that constant. -/
def CategoricFactorEvaluator.eval (_ev : CategoricFactorEvaluator)
    (_data : List (String × PyVal)) : Except ChError NpArr :=
  .error (.nameError "default_env")

/-- What lines 135-152 of `CategoricFactorEvaluator.eval` would do with the
factor-evaluation result, embedded for reference: apply the postprocessor
when one is set; require a `Categorical` result (else a factor-tagged type
error); require the level sequence to equal the frozen expected one,
order-sensitively (else a level-mismatch error); require the index array to
have dimensionality at most 1; and return it reshaped into a single-column
matrix.  The evaluator's in-file test (lines 154-178) exercises exactly
these outcomes, but `eval` never reaches this code. -/
def categoricEvalChecks (ev : CategoricFactorEvaluator) (result : PyVal) :
    Except ChError NpArr := do
  let processed ←
    match ev.postprocessor with
    | some post => do
        let c ← post.transform result
        pure (PyVal.categorical c)
    | none => pure result
  match processed with
  | .arr _ => throw (.typeError ev.factor.name)
  | .categorical c =>
      if c.levels ≠ ev.expected_levels then
        throw (.levelMismatch ev.factor.name)
      else do
        max_allowed_dim 1 c.int_array ev.factor
        pure (atleast_2d_column_default c.int_array)

/-- C6: contrary to the claim, no call of `CategoricFactorEvaluator.eval`
performs the type, level and dimension checks: every call fails with the
interpreter's `NameError` on the unbound `default_env` at line 134, for any
evaluator and any chunk.  The source's own `test_CategoricFactorEvaluator`
(lines 154-178) expects `eval` to return the index column `[[1], [0], [1]]`
on `Categorical.from_strings(["b", "a", "b"])`. -/
theorem claim_C6_categoric_eval_name_error (ev : CategoricFactorEvaluator)
    (data : List (String × PyVal)) :
    ev.eval data = .error (.nameError "default_env") := rfl

/-- Reference behavior of the unreachable numeric checks: a width-1 numeric
column passes and is returned 2-d coerced; a wrong column count is a shape
error, a boolean dtype a type error, a 3-dimensional value a dimension
error — the outcomes the in-file test expects of `eval`. -/
theorem numericEvalChecks_outcomes :
    numericEvalChecks ⟨⟨"f"⟩, 1⟩ ⟨.num, [3], [1, 2, 3]⟩ = .ok ⟨.num, [3, 1], [1, 2, 3]⟩ ∧
    numericEvalChecks ⟨⟨"f"⟩, 2⟩ ⟨.num, [3], [1, 2, 3]⟩ = .error (.shapeError "f" 1 2) ∧
    numericEvalChecks ⟨⟨"f"⟩, 1⟩ ⟨.bool, [2], [1, 0]⟩ = .error (.typeError "f") ∧
    numericEvalChecks ⟨⟨"f"⟩, 1⟩ ⟨.num, [1, 1, 1], []⟩ = .error (.dimError "f" 3 2) :=
  ⟨rfl, rfl, rfl, rfl⟩

/-- Reference behavior of the unreachable categoric checks: a matching
`Categorical` is returned as a single-column index matrix; the same levels
in a different order are a level mismatch; a bare array is a type error; and
with the boolean postprocessor installed, boolean data converts and
passes — the outcomes the in-file test expects of `eval`. -/
theorem categoricEvalChecks_outcomes :
    categoricEvalChecks ⟨⟨"g"⟩, none, [.str "a", .str "b"]⟩ (.categorical testCat) =
      .ok ⟨.num, [3, 1], [1, 0, 1]⟩ ∧
    categoricEvalChecks ⟨⟨"g"⟩, none, [.str "b", .str "a"]⟩ (.categorical testCat) =
      .error (.levelMismatch "g") ∧
    categoricEvalChecks ⟨⟨"g"⟩, none, [.str "a", .str "b"]⟩ (.arr ⟨.num, [3], [1, 0, 1]⟩) =
      .error (.typeError "g") ∧
    categoricEvalChecks ⟨⟨"g"⟩, some ⟨⟨"g"⟩⟩, [.bool false, .bool true]⟩ (.arr boolChunk) =
      .ok ⟨.num, [2, 1], [1, 0]⟩ :=
  ⟨rfl, rfl, rfl, rfl⟩

/-- `_factors_memorize` (lines 270-299).  The set-up loop at line 276
iterates `all_factors`, which is bound neither in the function — its
parameters are `stateful_transforms`, `default_env`, `factors`,
`data_iter_maker` — nor at module level, so every call raises `NameError`
before any factor receives a `memorize_passes_needed`, `memorize_chunk` or
`memorize_finish` call.  (Past that slip the function still could not run:
line 284 reads the likewise unbound `factor_passes`, the dict built at line
280 being named `memorize_passes`, and lines 294-297 remove elements from
the set `memorize_needed` while iterating it, which Python rejects with
`RuntimeError`.)  The embedding is that constant; the restartable chunk
supplier is embedded as the list of chunks it yields, and each factor's
produced state as an opaque dict. -/
def factors_memorize (_stateful_transforms : List String)
    (_default_env : List (String × PyVal)) (_factors : List Factor)
    (_data_chunks : List (List (String × PyVal))) :
    Except ChError (List (Factor × List (String × PyVal))) :=
  .error (.nameError "all_factors")

/-- C7: contrary to the claim, the memorization orchestrator performs no
pass protocol at all: every call of `_factors_memorize` fails with the
interpreter's `NameError` on the unbound `all_factors` at line 276, before
any memorize call is issued to any factor, for every factor set and chunk
stream. -/
theorem claim_C7_memorize_name_error (stateful_transforms : List String)
    (default_env : List (String × PyVal)) (factors : List Factor)
    (data_chunks : List (List (String × PyVal))) :
    factors_memorize stateful_transforms default_env factors data_chunks =
      .error (.nameError "all_factors") := rfl

/-- Witness for C4: the step on a fresh working set containing only the
boolean factor. -/
theorem claim_C4_bool_never_classified_witness :
    examineStep tfb (.arr boolChunk) ⟨[], [], [], [tfb]⟩ = .error (.dimError "b" 2 1) ∧
    BoolToCategorical.transform ⟨tfb⟩ (.arr boolChunk) =
      .ok ⟨[.bool false, .bool true], ⟨.num, [2], [1, 0]⟩, none⟩ :=
  claim_C4_bool_never_classified ⟨[], [], [], [tfb]⟩

/-- Witness for C5: the in-file test's evaluator (expected width 1) on the
chunk `{"mock": [1, 2, 3]}`. -/
theorem claim_C5_numeric_eval_name_error_witness :
    NumericFactorEvaluator.eval ⟨⟨"f"⟩, 1⟩ [("mock", .arr ⟨.num, [3], [1, 2, 3]⟩)] =
      .error (.nameError "env") :=
  claim_C5_numeric_eval_name_error ⟨⟨"f"⟩, 1⟩ [("mock", .arr ⟨.num, [3], [1, 2, 3]⟩)]

/-- Witness for C6: the in-file test's evaluator (expected levels
`["a", "b"]`, no postprocessor) on a chunk carrying a categorical value. -/
theorem claim_C6_categoric_eval_name_error_witness :
    CategoricFactorEvaluator.eval ⟨⟨"g"⟩, none, [.str "a", .str "b"]⟩
        [("mock", .categorical testCat)] =
      .error (.nameError "default_env") :=
  claim_C6_categoric_eval_name_error ⟨⟨"g"⟩, none, [.str "a", .str "b"]⟩
    [("mock", .categorical testCat)]

/-- Witness for C7: one lookup factor over a one-chunk stream. -/
theorem claim_C7_memorize_name_error_witness :
    factors_memorize [] [] [⟨"x"⟩] [[("x", .arr ⟨.num, [3], [1, 2, 3]⟩)]] =
      .error (.nameError "all_factors") :=
  claim_C7_memorize_name_error [] [] [⟨"x"⟩] [[("x", .arr ⟨.num, [3], [1, 2, 3]⟩)]]

/-- A model spec over the two-term builder on both sides, for witnesses. -/
def testSpec : ModelSpec := ⟨testMmb, testMmb⟩

/-- A three-row chunk carrying the round-trip factor values, for witnesses. -/
def testChunk : Chunk := ⟨3, testFactorValues⟩

/-- Witness for C9: the concrete spec and chunk. -/
theorem claim_C9_single_shot_is_incremental_witness :
    testSpec.make_matrices testChunk = testSpec.make_matrices_incremental [testChunk] ∧
    testSpec.make_matrices testChunk =
      [[testSpec.lhs_builder.build_chunk testChunk,
        testSpec.rhs_builder.build_chunk testChunk]] :=
  claim_C9_single_shot_is_incremental testSpec testChunk
